import Mathlib

/-!
Shallow embedding of the barber-booking application (src/app.py):
the data model (Barber, Client, Booking rows of the relational store),
the slot-availability route `slots`, the booking route `book`, and the
cancellation route `cancel`, together with theorems settling the
specification claims about them.
-/

namespace BarberBooking

/-- Whitespace characters removed by Python str.strip (ASCII subset). -/
def pyIsSpace (c : Char) : Bool :=
  c == ' ' || c == '\t' || c == '\n' || c == '\x0d' || c == '\x0b' || c == '\x0c'

/-- Model of Python str.strip(): drop leading and trailing whitespace. -/
def pyStrip (s : String) : String :=
  ⟨((s.data.dropWhile pyIsSpace).reverse.dropWhile pyIsSpace).reverse⟩

/-- Model of Python string comparison `a < b`: lexicographic on code points. -/
def strLtChars : List Char → List Char → Bool
  | [], [] => false
  | [], _ :: _ => true
  | _ :: _, [] => false
  | a :: as, b :: bs =>
    if a.val < b.val then true
    else if b.val < a.val then false
    else strLtChars as bs

/-- Python `date < today` on the two strings. -/
def strLt (a b : String) : Bool := strLtChars a.data b.data

/-- Character class [a-zA-Z0-9_.+-] of the email regex (local part). -/
def localChar (c : Char) : Bool :=
  c.isAlpha || c.isDigit || c == '_' || c == '.' || c == '+' || c == '-'

/-- Character class [a-zA-Z0-9-] of the email regex (domain label before the first dot). -/
def domainChar (c : Char) : Bool :=
  c.isAlpha || c.isDigit || c == '-'

/-- Character class [a-zA-Z0-9-.] of the email regex (rest after the first dot). -/
def tailChar (c : Char) : Bool :=
  c.isAlpha || c.isDigit || c == '-' || c == '.'

/-- Split a character list at the first occurrence of `sep`; none if absent. -/
def breakOn (sep : Char) : List Char → Option (List Char × List Char)
  | [] => Option.none
  | c :: cs =>
    if c == sep then Option.some ([], cs)
    else
      match breakOn sep cs with
      | Option.none => Option.none
      | Option.some (a, b) => Option.some (c :: a, b)

/-- Model of re.match on the pattern from app.py line 134,
r'^[a-zA-Z0-9_.+-]+@[a-zA-Z0-9-]+\.[a-zA-Z0-9-.]+$'.
None of the three classes contains '@', so a match is exactly: a split at the
(unique) '@' into a nonempty local part of localChars and a domain; the domain
part before its first '.' is nonempty, dot-free and of domainChars, and the
rest after that first '.' is nonempty and of tailChars. -/
def emailMatches (s : String) : Bool :=
  match breakOn '@' s.data with
  | Option.none => false
  | Option.some (lp, dom) =>
    !lp.isEmpty && lp.all localChar &&
      match breakOn '.' dom with
      | Option.none => false
      | Option.some (d, t) =>
        !d.isEmpty && d.all domainChar && !t.isEmpty && t.all tailChar

/-- Row of the barber table (app.py class Barber). -/
structure Barber where
  id : Nat
  name : String
  user_id : Option Nat
deriving DecidableEq, Repr

/-- Row of the client table (app.py class Client). -/
structure Client where
  id : Nat
  name : String
  email : String
deriving DecidableEq, Repr

/-- Row of the booking table (app.py class Booking). -/
structure Booking where
  id : Nat
  barber_id : Nat
  client_id : Nat
  date : String
  time : String
  status : String
deriving DecidableEq, Repr

/-- The persisted (committed) store: the three tables the claims touch,
plus the autoincrement counters for primary keys. -/
structure DB where
  barbers : List Barber
  clients : List Client
  bookings : List Booking
  nextClientId : Nat
  nextBookingId : Nat
deriving DecidableEq, Repr

/-- The empty store. -/
def emptyDB : DB :=
  { barbers := [], clients := [], bookings := [], nextClientId := 1, nextBookingId := 1 }

/-- The rejection reasons of the booking admission check, one per flash
branch of `book` (app.py lines 129-147). -/
inductive Reason where
  | nameRequired
  | invalidEmail
  | pastDate
  | slotTaken
deriving DecidableEq, Repr

/-- Outcome of a booking request: a rejection flash, the success flash, or
the generic database-error flash of the OperationalError handler. -/
inductive BookOutcome where
  | rejected (r : Reason)
  | confirmed
  | dbError
deriving DecidableEq, Repr

/-- Where, if anywhere, the store raises OperationalError during `book`:
at the existing-booking query (line 144), at the client commit (line 151),
or at the booking commit (line 155). -/
inductive FaultPoint where
  | none
  | atSlotQuery
  | atClientCommit
  | atBookingCommit
deriving DecidableEq, Repr

/-- The booking route `book` (app.py lines 119-162). `today` is the value of
datetime.now().strftime of the current date; form fields client_name and
client_email arrive stripped (lines 125-126). A raised OperationalError is
caught and turned into the generic error flash; each commit persists the
rows added before it, so a fault at the booking commit keeps the already
committed client row. Returns the outcome and the resulting persisted store. -/
def book (fault : FaultPoint) (today : String) (db : DB) (barber_id : Nat)
    (date time client_name_raw client_email_raw : String) : BookOutcome × DB :=
  let client_name := pyStrip client_name_raw
  let client_email := pyStrip client_email_raw
  if client_name == "" then (BookOutcome.rejected Reason.nameRequired, db)
  else if !emailMatches client_email then (BookOutcome.rejected Reason.invalidEmail, db)
  else if strLt date today then (BookOutcome.rejected Reason.pastDate, db)
  else if fault == FaultPoint.atSlotQuery then (BookOutcome.dbError, db)
  else if db.bookings.any (fun b => b.barber_id == barber_id && b.date == date && b.time == time) then
    (BookOutcome.rejected Reason.slotTaken, db)
  else if fault == FaultPoint.atClientCommit then (BookOutcome.dbError, db)
  else
    let client : Client := { id := db.nextClientId, name := client_name, email := client_email }
    let db1 : DB := { db with clients := db.clients ++ [client], nextClientId := db.nextClientId + 1 }
    if fault == FaultPoint.atBookingCommit then (BookOutcome.dbError, db1)
    else
      let bk : Booking := { id := db.nextBookingId, barber_id := barber_id,
                            client_id := client.id, date := date, time := time,
                            status := "Confirmed" }
      (BookOutcome.confirmed,
        { db1 with bookings := db1.bookings ++ [bk], nextBookingId := db.nextBookingId + 1 })

/-- The fixed daily slot catalog (app.py line 171). -/
def all_slots : List String :=
  ["09:00", "10:00", "11:00", "12:00", "13:00", "14:00", "15:00", "16:00"]

/-- The slot-availability route `slots` (app.py lines 164-176): the bookings
for (barber_id, date) are fetched with no status filter, their times are the
booked times, and the catalog is filtered down to the slots not among them. -/
def slots (db : DB) (barber_id : Nat) (date : String) : List String :=
  let booked_times :=
    (db.bookings.filter (fun b => b.barber_id == barber_id && b.date == date)).map
      (fun b => b.time)
  all_slots.filter (fun s => !booked_times.contains s)

/-- Outcome of a cancellation request: 404 from get_or_404, the unauthorized
flash, success, or the uncaught AttributeError raised when the requesting
operator has no linked barber row and `barber.id` dereferences None. -/
inductive CancelResult where
  | notFound
  | unauthorized
  | ok
  | crash
deriving DecidableEq, Repr

/-- The cancellation route `cancel` (app.py lines 241-256): look up the
booking by primary key (404 if absent), look up the first barber row linked
to the requesting operator (None dereference if absent), reject if the
booking belongs to a different barber, otherwise flip its status to
Cancelled and commit. -/
def cancel (db : DB) (booking_id : Nat) (user_id : Nat) : CancelResult × DB :=
  match db.bookings.find? (fun b => b.id == booking_id) with
  | Option.none => (CancelResult.notFound, db)
  | Option.some bk =>
    match db.barbers.find? (fun br => br.user_id == Option.some user_id) with
    | Option.none => (CancelResult.crash, db)
    | Option.some br =>
      if bk.barber_id != br.id then (CancelResult.unauthorized, db)
      else
        let updated := db.bookings.map
          (fun b => if b.id == booking_id then { b with status := "Cancelled" } else b)
        (CancelResult.ok, { db with bookings := updated })

/-- One serialized request against the store: a booking request (with any
fault point) or a cancellation request. -/
inductive Step : DB → DB → Prop where
  | book : ∀ (db : DB) (fault : FaultPoint) (today : String) (barber_id : Nat)
      (date time name email : String),
      Step db (book fault today db barber_id date time name email).2
  | cancel : ∀ (db : DB) (booking_id user_id : Nat),
      Step db (cancel db booking_id user_id).2

/-- States reachable from the empty store by serialized booking and
cancellation requests. -/
inductive Reachable : DB → Prop where
  | init : Reachable emptyDB
  | step : ∀ (db db' : DB), Reachable db → Step db db' → Reachable db'

/-- The (barber, date, time) key of a booking row. -/
def triple (b : Booking) : Nat × String × String := (b.barber_id, b.date, b.time)

/-- No two booking rows (of any status) share a (barber, date, time) key. -/
def DistinctTriples (l : List Booking) : Prop :=
  l.Pairwise (fun a b => triple a ≠ triple b)

example : emailMatches "a@b.co" = true := by decide
example : emailMatches "not-an-email" = false := by decide
example : emailMatches "alice@x.com" = true := by decide
example : strLt "2020-01-01" "2025-10-12" = true := by decide
example : pyStrip " Alice " = "Alice" := by decide

/-! ### Concrete stores used by witnesses and counterexamples -/

/-- Store whose only booking row is Cancelled: barber 1, 2025-01-10, 09:00. -/
def dbCancelledOnly : DB :=
  { barbers := [], clients := [{ id := 1, name := "Carol", email := "c@x.co" }],
    bookings := [{ id := 1, barber_id := 1, client_id := 1, date := "2025-01-10",
                   time := "09:00", status := "Cancelled" }],
    nextClientId := 2, nextBookingId := 2 }

/-- Store whose only booking belongs to barber 2, so barber 1 is unknown to it. -/
def dbOtherBarber : DB :=
  { barbers := [], clients := [{ id := 1, name := "Carol", email := "c@x.co" }],
    bookings := [{ id := 1, barber_id := 2, client_id := 1, date := "2025-01-10",
                   time := "09:00", status := "Confirmed" }],
    nextClientId := 2, nextBookingId := 2 }

/-- Store with a Confirmed booking occupying (1, 2020-01-01, 09:00). -/
def dbPastOccupied : DB :=
  { barbers := [], clients := [{ id := 1, name := "Carol", email := "c@x.co" }],
    bookings := [{ id := 1, barber_id := 1, client_id := 1, date := "2020-01-01",
                   time := "09:00", status := "Confirmed" }],
    nextClientId := 2, nextBookingId := 2 }

/-- Store where barber 1 is linked to operator 5 and the only booking belongs
to barber 2. -/
def dbUnauthorized : DB :=
  { barbers := [{ id := 1, name := "bob", user_id := Option.some 5 }],
    clients := [{ id := 1, name := "Carol", email := "c@x.co" }],
    bookings := [{ id := 1, barber_id := 2, client_id := 1, date := "2025-12-01",
                   time := "09:00", status := "Confirmed" }],
    nextClientId := 2, nextBookingId := 2 }

/-- Store with a booking but no barber row linked to any operator, as after
the seeded admin account logs in. -/
def dbNoProfile : DB :=
  { barbers := [], clients := [{ id := 1, name := "Carol", email := "c@x.co" }],
    bookings := [{ id := 1, barber_id := 1, client_id := 1, date := "2025-12-01",
                   time := "09:00", status := "Confirmed" }],
    nextClientId := 2, nextBookingId := 2 }

/-- The state after one successful booking request against the empty store. -/
def dbOneStep : DB :=
  (book FaultPoint.none "2025-10-12" emptyDB 1 "2025-12-01" "09:00" "Alice" "a@b.co").2

/-! ### Helper lemmas about `slots` -/

/-- Membership in the availability result: a time is returned exactly when it
is in the catalog and no booking row (of any status) for (barber, date) holds it. -/
theorem mem_slots_aux (db : DB) (bid : Nat) (date t : String) :
    t ∈ slots db bid date ↔
      t ∈ all_slots ∧ ∀ b ∈ db.bookings, b.barber_id = bid → b.date = date → b.time ≠ t := by
  simp only [slots, List.mem_filter, Bool.not_eq_true', ← List.elem_iff]
  simp [List.mem_map, List.mem_filter, beq_iff_eq]

/-- A barber/date pair with no booking rows at all gets the full catalog. -/
theorem slots_full_aux (db : DB) (bid : Nat) (date : String)
    (h : ∀ b ∈ db.bookings, ¬(b.barber_id = bid ∧ b.date = date)) :
    slots db bid date = all_slots := by
  have hnil : db.bookings.filter (fun b => b.barber_id == bid && b.date == date) = [] := by
    simp only [List.filter_eq_nil_iff, Bool.and_eq_true, beq_iff_eq, not_and]
    intro b hb h1 h2
    exact h b hb ⟨h1, h2⟩
  simp [slots, hnil]

/-! ### Helper lemmas about the branches of `book` -/

/-- Empty (stripped) client name: rejected first, whatever else holds. -/
theorem book_rejects_empty_name (fault : FaultPoint) (today : String) (db : DB) (bid : Nat)
    (date time name email : String) (h : pyStrip name = "") :
    (book fault today db bid date time name email).1 = BookOutcome.rejected Reason.nameRequired := by
  simp [book, h]

/-- Nonempty name but failing email pattern: rejected with invalid email. -/
theorem book_rejects_bad_email (fault : FaultPoint) (today : String) (db : DB) (bid : Nat)
    (date time name email : String) (hn : pyStrip name ≠ "")
    (he : emailMatches (pyStrip email) = false) :
    (book fault today db bid date time name email).1 = BookOutcome.rejected Reason.invalidEmail := by
  simp [book, hn, he]

/-- Valid name and email but past date: rejected with past date, for every
store state and every fault point, since the date check precedes any store access. -/
theorem book_rejects_past_aux (fault : FaultPoint) (today : String) (db : DB) (bid : Nat)
    (date time name email : String) (hn : pyStrip name ≠ "")
    (he : emailMatches (pyStrip email) = true) (hd : strLt date today = true) :
    (book fault today db bid date time name email).1 = BookOutcome.rejected Reason.pastDate := by
  simp [book, hn, he, hd]

/-- Valid request for an occupied (barber, date, time): rejected with slot taken. -/
theorem book_rejects_taken_aux (today : String) (db : DB) (bid : Nat)
    (date time name email : String) (hn : pyStrip name ≠ "")
    (he : emailMatches (pyStrip email) = true) (hd : strLt date today = false)
    (ht : ∃ b ∈ db.bookings, b.barber_id = bid ∧ b.date = date ∧ b.time = time) :
    (book FaultPoint.none today db bid date time name email).1 =
      BookOutcome.rejected Reason.slotTaken := by
  have hany : db.bookings.any
      (fun b => b.barber_id == bid && b.date == date && b.time == time) = true := by
    simp only [List.any_eq_true, Bool.and_eq_true, beq_iff_eq]
    obtain ⟨b, hb, h1, h2, h3⟩ := ht
    exact ⟨b, hb, ⟨h1, h2⟩, h3⟩
  simp [book, hn, he, hd, hany]

/-- Fault-free valid request for a free slot: the exact resulting store, with
the fresh client row committed and the fresh Confirmed booking row committed. -/
theorem book_confirm_eq_aux (today : String) (db : DB) (bid : Nat)
    (date time name email : String) (hn : pyStrip name ≠ "")
    (he : emailMatches (pyStrip email) = true) (hd : strLt date today = false)
    (ht : ∀ b ∈ db.bookings, ¬(b.barber_id = bid ∧ b.date = date ∧ b.time = time)) :
    book FaultPoint.none today db bid date time name email =
      (BookOutcome.confirmed,
        { db with
            clients := db.clients ++
              [{ id := db.nextClientId, name := pyStrip name, email := pyStrip email }],
            nextClientId := db.nextClientId + 1,
            bookings := db.bookings ++
              [{ id := db.nextBookingId, barber_id := bid, client_id := db.nextClientId,
                 date := date, time := time, status := "Confirmed" }],
            nextBookingId := db.nextBookingId + 1 }) := by
  have hany : db.bookings.any
      (fun b => b.barber_id == bid && b.date == date && b.time == time) = false := by
    simp only [List.any_eq_false, Bool.and_eq_true, beq_iff_eq, not_and]
    intro b hb h1 h2
    exact ht b hb ⟨h1.1, h1.2, h2⟩
  simp [book, hn, he, hd, hany]

/-! ### The double-booking invariant under serialized requests -/

/-- A booking request preserves key distinctness of the booking rows: the
only branch that inserts a row first checked that no row holds its key. -/
theorem book_preserves_distinct (fault : FaultPoint) (today : String) (db : DB) (bid : Nat)
    (date time name email : String) (h : DistinctTriples db.bookings) :
    DistinctTriples (book fault today db bid date time name email).2.bookings := by
  simp only [book]
  split_ifs with h1 h2 h3 h4 h5 h6 h7
  · exact h
  · exact h
  · exact h
  · exact h
  · exact h
  · exact h
  · exact h
  · rw [DistinctTriples, List.pairwise_append]
    refine ⟨h, List.pairwise_singleton _ _, ?_⟩
    intro a ha b hb
    simp only [List.mem_singleton] at hb
    subst hb
    intro hcon
    simp only [triple, Prod.mk.injEq] at hcon
    have : db.bookings.any
        (fun b => b.barber_id == bid && b.date == date && b.time == time) = true := by
      simp only [List.any_eq_true, Bool.and_eq_true, beq_iff_eq]
      exact ⟨a, ha, ⟨hcon.1, hcon.2.1⟩, hcon.2.2⟩
    simp [this] at h5

/-- A cancellation request preserves key distinctness: it only ever rewrites
the status field, never a key field. -/
theorem cancel_preserves_distinct (db : DB) (bid uid : Nat) (h : DistinctTriples db.bookings) :
    DistinctTriples (cancel db bid uid).2.bookings := by
  simp only [cancel]
  cases hf : db.bookings.find? (fun b => b.id == bid) with
  | none => exact h
  | some bk =>
    cases hg : db.barbers.find? (fun br => br.user_id == Option.some uid) with
    | none => exact h
    | some br =>
      by_cases he : bk.barber_id != br.id
      · simp only [he, if_true]
        exact h
      · simp only [he, if_false]
        have htr : ∀ b : Booking,
            triple (if b.id == bid then { b with status := "Cancelled" } else b) = triple b := by
          intro b
          by_cases hb : b.id == bid <;> simp [hb, triple]
        refine h.map _ ?_
        intro a b hab
        rw [htr a, htr b]
        exact hab

/-- Every state reachable from the empty store by serialized booking and
cancellation requests has pairwise distinct (barber, date, time) keys across
all of its booking rows, whatever their status. -/
theorem reachable_distinct_aux (db : DB) (h : Reachable db) : DistinctTriples db.bookings := by
  induction h with
  | init => exact List.Pairwise.nil
  | step db db' _ hs ih =>
    cases hs with
    | book fault today bid date time name email =>
      exact book_preserves_distinct fault today db bid date time name email ih
    | cancel bid uid =>
      exact cancel_preserves_distinct db bid uid ih

/-! ### Claim theorems -/

/-- C1 (amended): for every store, barber and date, the slot-availability
operation returns a subsequence of the fixed catalog in catalog order; a
catalog time is returned exactly when no booking row of ANY status for
(barber, date) holds it — the query applies no status filter, so Cancelled
bookings also hide their slot; and an unknown barber or a date with no
bookings yields the full catalog unchanged. -/
theorem slots_spec (db : DB) (bid : Nat) (date : String) :
    (slots db bid date).Sublist all_slots ∧
    (∀ t, t ∈ slots db bid date ↔
      t ∈ all_slots ∧ ∀ b ∈ db.bookings, b.barber_id = bid → b.date = date → b.time ≠ t) ∧
    ((∀ b ∈ db.bookings, ¬(b.barber_id = bid ∧ b.date = date)) → slots db bid date = all_slots) := by
  refine ⟨?_, fun t => mem_slots_aux db bid date t, slots_full_aux db bid date⟩
  simp only [slots]
  exact List.filter_sublist _

/-- C1 witness: a store whose only booking belongs to another barber leaves
barber 1's catalog unchanged. -/
theorem slots_spec_witness : slots dbOtherBarber 1 "2025-01-10" = all_slots :=
  (slots_spec dbOtherBarber 1 "2025-01-10").2.2 (by decide)

/-- C1 counterexample: in a store whose only booking for (1, 2025-01-10) at
09:00 is Cancelled, 09:00 is held by no Confirmed booking and yet is missing
from the availability result, refuting the claim that the result contains
every catalog time not held by a Confirmed booking. -/
theorem slots_cancelled_counterexample :
    (∀ b ∈ dbCancelledOnly.bookings, b.status ≠ "Confirmed") ∧
    "09:00" ∈ all_slots ∧ "09:00" ∉ slots dbCancelledOnly 1 "2025-01-10" := by decide

/-- C2 (amended): once the name, email and date checks pass, the booking
request is rejected with slot taken exactly when some existing booking row of
ANY status — the occupancy query applies no status filter — holds
(barber, date, time); consequently, booking the same (barber, date, time)
twice has the second valid attempt rejected with slot taken regardless of the
client name and email supplied. -/
theorem book_slot_taken_iff (today : String) (db : DB) (bid : Nat) (date time name email : String)
    (hn : pyStrip name ≠ "") (he : emailMatches (pyStrip email) = true)
    (hd : strLt date today = false) :
    ((book FaultPoint.none today db bid date time name email).1 =
        BookOutcome.rejected Reason.slotTaken ↔
      ∃ b ∈ db.bookings, b.barber_id = bid ∧ b.date = date ∧ b.time = time) ∧
    (∀ name2 email2, pyStrip name2 ≠ "" → emailMatches (pyStrip email2) = true →
      (book FaultPoint.none today db bid date time name email).1 = BookOutcome.confirmed →
      (book FaultPoint.none today (book FaultPoint.none today db bid date time name email).2
          bid date time name2 email2).1 = BookOutcome.rejected Reason.slotTaken) := by
  by_cases hocc : ∃ b ∈ db.bookings, b.barber_id = bid ∧ b.date = date ∧ b.time = time
  · have hrej := book_rejects_taken_aux today db bid date time name email hn he hd hocc
    refine ⟨⟨fun _ => hocc, fun _ => hrej⟩, ?_⟩
    intro name2 email2 hn2 he2 hconf
    rw [hrej] at hconf
    cases hconf
  · have hall : ∀ b ∈ db.bookings, ¬(b.barber_id = bid ∧ b.date = date ∧ b.time = time) := by
      intro b hb hcon
      exact hocc ⟨b, hb, hcon⟩
    have heq := book_confirm_eq_aux today db bid date time name email hn he hd hall
    refine ⟨⟨?_, fun hex => absurd hex hocc⟩, ?_⟩
    · intro hcon
      rw [heq] at hcon
      simp at hcon
    · intro name2 email2 hn2 he2 _
      rw [heq]
      apply book_rejects_taken_aux today _ bid date time name2 email2 hn2 he2 hd
      refine ⟨{ id := db.nextBookingId, barber_id := bid, client_id := db.nextClientId,
                date := date, time := time, status := "Confirmed" }, ?_, rfl, rfl, rfl⟩
      simp

/-- C2 witness: the second booking request for the same slot as a first
successful one is rejected with slot taken although the client differs. -/
theorem book_slot_taken_iff_witness :
    (book FaultPoint.none "2025-10-12"
      (book FaultPoint.none "2025-10-12" emptyDB 1 "2025-12-01" "09:00" "Alice" "a@b.co").2
      1 "2025-12-01" "09:00" "Bob" "b@b.co").1 = BookOutcome.rejected Reason.slotTaken :=
  (book_slot_taken_iff "2025-10-12" emptyDB 1 "2025-12-01" "09:00" "Alice" "a@b.co"
    (by decide) (by decide) (by decide)).2 "Bob" "b@b.co" (by decide) (by decide) (by decide)

/-- C2 counterexample: a store whose only booking at (1, 2025-01-10, 09:00)
is Cancelled still causes the rejection, so the rejection is not equivalent
to a Confirmed booking occupying the slot. -/
theorem book_slot_taken_counterexample :
    (∀ b ∈ dbCancelledOnly.bookings, b.status ≠ "Confirmed") ∧
    (book FaultPoint.none "2025-01-01" dbCancelledOnly 1 "2025-01-10" "09:00" "Bob" "b@b.co").1 =
      BookOutcome.rejected Reason.slotTaken := by decide

/-- C3 (confirmed): in every state reachable from the empty store by a
serialized sequence of booking and cancellation requests, no two Confirmed
bookings share the same (barber, date, time) triple. -/
theorem reachable_no_confirmed_double_booking (db : DB) (h : Reachable db) :
    (db.bookings.filter (fun b => b.status == "Confirmed")).Pairwise
      (fun a b => ¬(a.barber_id = b.barber_id ∧ a.date = b.date ∧ a.time = b.time)) := by
  have hd := reachable_distinct_aux db h
  have hsub : (db.bookings.filter (fun b => b.status == "Confirmed")).Sublist db.bookings :=
    List.filter_sublist _
  refine List.Pairwise.imp ?_ (hd.sublist hsub)
  intro a b hne hcon
  exact hne (by simp [triple, hcon.1, hcon.2.1, hcon.2.2])

/-- C3 witness: the state after one successful booking request is reachable
and its Confirmed bookings are pairwise distinct on (barber, date, time). -/
theorem reachable_no_confirmed_double_booking_witness :
    Reachable dbOneStep ∧
    (dbOneStep.bookings.filter (fun b => b.status == "Confirmed")).Pairwise
      (fun a b => ¬(a.barber_id = b.barber_id ∧ a.date = b.date ∧ a.time = b.time)) := by
  have hr : Reachable dbOneStep :=
    Reachable.step emptyDB dbOneStep Reachable.init
      (Step.book emptyDB FaultPoint.none "2025-10-12" 1 "2025-12-01" "09:00" "Alice" "a@b.co")
  exact ⟨hr, reachable_no_confirmed_double_booking dbOneStep hr⟩

/-- C4 (amended): a store failure during a booking request yields the generic
error outcome with no Booking row ever inserted; the store is exactly as
before when the failure hits the occupancy query or the client commit, but a
failure at the booking commit leaves the already committed Client row
persisted, because the write path uses two separate commits. -/
theorem book_store_failure_state (fault : FaultPoint) (today : String) (db : DB) (bid : Nat)
    (date time name email : String)
    (h : (book fault today db bid date time name email).1 = BookOutcome.dbError) :
    (book fault today db bid date time name email).2.bookings = db.bookings ∧
    ((fault = FaultPoint.atSlotQuery ∨ fault = FaultPoint.atClientCommit) →
      (book fault today db bid date time name email).2 = db) ∧
    (fault = FaultPoint.atBookingCommit →
      (book fault today db bid date time name email).2 =
        { db with
            clients := db.clients ++
              [{ id := db.nextClientId, name := pyStrip name, email := pyStrip email }],
            nextClientId := db.nextClientId + 1 }) := by
  simp only [book] at h ⊢
  split_ifs at h ⊢ with h1 h2 h3 h4 h5 h6 h7
  · refine ⟨rfl, fun _ => rfl, ?_⟩
    intro hb
    rw [hb] at h4
    simp at h4
  · refine ⟨rfl, fun _ => rfl, ?_⟩
    intro hb
    rw [hb] at h6
    simp at h6
  · refine ⟨rfl, ?_, fun _ => rfl⟩
    rintro (hb | hb) <;> (rw [hb] at h7; simp at h7)

/-- C4 witness: a failure at the occupancy query leaves the store unchanged. -/
theorem book_store_failure_state_witness :
    (book FaultPoint.atSlotQuery "2025-10-12" emptyDB 1 "2025-12-01" "09:00" "Alice" "a@b.co").2 =
      emptyDB :=
  (book_store_failure_state FaultPoint.atSlotQuery "2025-10-12" emptyDB 1 "2025-12-01" "09:00"
    "Alice" "a@b.co" (by decide)).2.1 (Or.inl rfl)

/-- C4 counterexample: a store failure at the booking commit produces the
generic error outcome but a store different from the one before the request:
the Client row from the first commit has been persisted. -/
theorem book_store_failure_counterexample :
    (book FaultPoint.atBookingCommit "2025-10-12" emptyDB 1 "2025-12-01" "09:00"
        "Alice" "a@b.co").1 = BookOutcome.dbError ∧
    (book FaultPoint.atBookingCommit "2025-10-12" emptyDB 1 "2025-12-01" "09:00"
        "Alice" "a@b.co").2 ≠ emptyDB := by decide

/-- C5 (confirmed): a booking request with valid (stripped) name and email
whose date is lexicographically earlier than the current date is rejected
with past date, for every store — occupied slot or not — and every fault
point, since the date check precedes any store access. -/
theorem book_past_date_rejected (fault : FaultPoint) (today : String) (db : DB) (bid : Nat)
    (date time name email : String) (hn : pyStrip name ≠ "")
    (he : emailMatches (pyStrip email) = true) (hd : strLt date today = true) :
    (book fault today db bid date time name email).1 = BookOutcome.rejected Reason.pastDate :=
  book_rejects_past_aux fault today db bid date time name email hn he hd

/-- C5 witness: the spec's example, with the current date 2025-10-12 and the
requested slot (1, 2020-01-01, 09:00) even already occupied by a Confirmed
booking: still rejected with past date. -/
theorem book_past_date_rejected_witness :
    (book FaultPoint.none "2025-10-12" dbPastOccupied 1 "2020-01-01" "09:00"
        "Alice" "alice@x.com").1 = BookOutcome.rejected Reason.pastDate :=
  book_past_date_rejected FaultPoint.none "2025-10-12" dbPastOccupied 1 "2020-01-01" "09:00"
    "Alice" "alice@x.com" (by decide) (by decide) (by decide)

/-- C6 (confirmed): the admission check evaluates its rejection reasons in
the fixed order empty name, invalid email, past date, occupied slot, and
reports the first that applies; in particular a request with an empty name
and a past date is rejected for the empty name. -/
theorem book_validation_order (today : String) (db : DB) (bid : Nat)
    (date time name email : String) :
    (pyStrip name = "" →
      (book FaultPoint.none today db bid date time name email).1 =
        BookOutcome.rejected Reason.nameRequired) ∧
    (pyStrip name ≠ "" → emailMatches (pyStrip email) = false →
      (book FaultPoint.none today db bid date time name email).1 =
        BookOutcome.rejected Reason.invalidEmail) ∧
    (pyStrip name ≠ "" → emailMatches (pyStrip email) = true → strLt date today = true →
      (book FaultPoint.none today db bid date time name email).1 =
        BookOutcome.rejected Reason.pastDate) ∧
    (pyStrip name ≠ "" → emailMatches (pyStrip email) = true → strLt date today = false →
      (∃ b ∈ db.bookings, b.barber_id = bid ∧ b.date = date ∧ b.time = time) →
      (book FaultPoint.none today db bid date time name email).1 =
        BookOutcome.rejected Reason.slotTaken) :=
  ⟨fun h => book_rejects_empty_name FaultPoint.none today db bid date time name email h,
   fun hn he => book_rejects_bad_email FaultPoint.none today db bid date time name email hn he,
   fun hn he hd => book_rejects_past_aux FaultPoint.none today db bid date time name email hn he hd,
   fun hn he hd ht => book_rejects_taken_aux today db bid date time name email hn he hd ht⟩

/-- C6 witness: a request whose name strips to empty and whose date is past
is rejected for the empty name, not for the past date. -/
theorem book_validation_order_witness :
    (book FaultPoint.none "2025-10-12" emptyDB 1 "2020-01-01" "09:00" " " "a@x.co").1 =
      BookOutcome.rejected Reason.nameRequired :=
  (book_validation_order "2025-10-12" emptyDB 1 "2020-01-01" "09:00" " " "a@x.co").1 (by decide)

/-- C7 (confirmed): cancellation returns NotFound when no booking with the
requested id exists; when the booking exists and the requesting operator has
a linked barber row, the request returns Unauthorized with the store — hence
the booking's status and every other field — unchanged if the booking
belongs to a different barber, and otherwise reports success, leaving
barbers and clients untouched and rewriting exactly the status of the rows
carrying the booking's id to Cancelled. -/
theorem cancel_spec (db : DB) (bid uid : Nat) :
    ((∀ b ∈ db.bookings, b.id ≠ bid) → cancel db bid uid = (CancelResult.notFound, db)) ∧
    (∀ bk, db.bookings.find? (fun b => b.id == bid) = Option.some bk →
      ∀ br, db.barbers.find? (fun x => x.user_id == Option.some uid) = Option.some br →
        (bk.barber_id ≠ br.id → cancel db bid uid = (CancelResult.unauthorized, db)) ∧
        (bk.barber_id = br.id →
          (cancel db bid uid).1 = CancelResult.ok ∧
          (cancel db bid uid).2.barbers = db.barbers ∧
          (cancel db bid uid).2.clients = db.clients ∧
          (cancel db bid uid).2.bookings = db.bookings.map
            (fun b => if b.id == bid then { b with status := "Cancelled" } else b))) := by
  constructor
  · intro hnone
    have hf : db.bookings.find? (fun b => b.id == bid) = Option.none := by
      rw [List.find?_eq_none]
      intro b hb
      simp [hnone b hb]
    simp [cancel, hf]
  · intro bk hf br hg
    constructor
    · intro hne
      have hb : (bk.barber_id != br.id) = true := by simp [hne]
      simp [cancel, hf, hg, hb]
    · intro heq
      have hb : (bk.barber_id != br.id) = false := by simp [heq]
      simp [cancel, hf, hg, hb]

/-- C7 witness: cancelling a booking owned by barber 2 as the operator linked
to barber 1 reports Unauthorized and leaves the whole store unchanged. -/
theorem cancel_spec_witness :
    cancel dbUnauthorized 1 5 = (CancelResult.unauthorized, dbUnauthorized) :=
  ((cancel_spec dbUnauthorized 1 5).2
    { id := 1, barber_id := 2, client_id := 1, date := "2025-12-01", time := "09:00",
      status := "Confirmed" } rfl
    { id := 1, name := "bob", user_id := Option.some 5 } rfl).1 (by decide)

/-- C8 (confirmed): a booking request with client_email "not-an-email" is
rejected with the invalid-email reason, and an otherwise identical request
with client_email "a@b.co" is never rejected for its email. -/
theorem book_email_examples (today : String) (db : DB) (bid : Nat) (date time name : String)
    (hn : pyStrip name ≠ "") :
    (book FaultPoint.none today db bid date time name "not-an-email").1 =
      BookOutcome.rejected Reason.invalidEmail ∧
    (book FaultPoint.none today db bid date time name "a@b.co").1 ≠
      BookOutcome.rejected Reason.invalidEmail := by
  constructor
  · exact book_rejects_bad_email FaultPoint.none today db bid date time name "not-an-email" hn
      (by decide)
  · intro hcon
    revert hcon
    simp only [book]
    split_ifs with h1 h2 h3 h4 h5 h6 h7 <;> simp_all
    exact absurd h2 (by decide)

/-- C8 witness: the two email examples at a concrete request. -/
theorem book_email_examples_witness :
    (book FaultPoint.none "2025-10-12" emptyDB 1 "2025-12-01" "09:00" "Alice" "not-an-email").1 =
      BookOutcome.rejected Reason.invalidEmail ∧
    (book FaultPoint.none "2025-10-12" emptyDB 1 "2025-12-01" "09:00" "Alice" "a@b.co").1 ≠
      BookOutcome.rejected Reason.invalidEmail :=
  book_email_examples "2025-10-12" emptyDB 1 "2025-12-01" "09:00" "Alice" (by decide)

/-- C9 (confirmed): when the requested booking exists but the requesting
operator has no linked barber row (for example the seeded admin account),
the ownership check dereferences a missing value: the request ends in the
uncaught-exception outcome and returns none of Ok, Unauthorized or NotFound,
so totality of cancel requires the operator to own a barber profile. -/
theorem cancel_crashes_without_barber_profile (db : DB) (bid uid : Nat)
    (hb : ∃ b ∈ db.bookings, b.id = bid)
    (hnb : ∀ br ∈ db.barbers, br.user_id ≠ Option.some uid) :
    (cancel db bid uid).1 = CancelResult.crash ∧
    (cancel db bid uid).1 ≠ CancelResult.ok ∧
    (cancel db bid uid).1 ≠ CancelResult.unauthorized ∧
    (cancel db bid uid).1 ≠ CancelResult.notFound := by
  have hf : (db.bookings.find? (fun b => b.id == bid)).isSome := by
    rw [List.find?_isSome]
    obtain ⟨b, hbm, hbid⟩ := hb
    exact ⟨b, hbm, by simp [hbid]⟩
  obtain ⟨bk, hbk⟩ := Option.isSome_iff_exists.mp hf
  have hg : db.barbers.find? (fun x => x.user_id == Option.some uid) = Option.none := by
    rw [List.find?_eq_none]
    intro x hx
    simp [hnb x hx]
  have hc : (cancel db bid uid).1 = CancelResult.crash := by simp [cancel, hbk, hg]
  exact ⟨hc, by simp [hc], by simp [hc], by simp [hc]⟩

/-- C9 witness: the admin scenario at a concrete store: a booking exists, no
barber row is linked to operator 1, and the request crashes. -/
theorem cancel_crashes_without_barber_profile_witness :
    (cancel dbNoProfile 1 1).1 = CancelResult.crash :=
  (cancel_crashes_without_barber_profile dbNoProfile 1 1 (by decide) (by decide)).1

/-- C10 (confirmed): every admitted booking request appends a fresh Client
row with the stripped form fields and the next client id — even when a
client with the same email already exists — so each admitted booking raises
the number of Client rows holding that email by one, and email is not a
unique key of the client table. -/
theorem book_inserts_fresh_client (today : String) (db : DB) (bid : Nat)
    (date time name email : String)
    (h : (book FaultPoint.none today db bid date time name email).1 = BookOutcome.confirmed) :
    (book FaultPoint.none today db bid date time name email).2.clients =
      db.clients ++ [{ id := db.nextClientId, name := pyStrip name, email := pyStrip email }] ∧
    ((book FaultPoint.none today db bid date time name email).2.clients.filter
        (fun c => c.email == pyStrip email)).length =
      (db.clients.filter (fun c => c.email == pyStrip email)).length + 1 := by
  by_cases hn : pyStrip name = ""
  · have := book_rejects_empty_name FaultPoint.none today db bid date time name email hn
    rw [h] at this
    cases this
  by_cases he : emailMatches (pyStrip email) = true
  case neg =>
    have := book_rejects_bad_email FaultPoint.none today db bid date time name email hn
      (by revert he; cases emailMatches (pyStrip email) <;> simp)
    rw [h] at this
    cases this
  by_cases hd : strLt date today = true
  · have := book_rejects_past_aux FaultPoint.none today db bid date time name email hn he hd
    rw [h] at this
    cases this
  by_cases ht : ∃ b ∈ db.bookings, b.barber_id = bid ∧ b.date = date ∧ b.time = time
  · have := book_rejects_taken_aux today db bid date time name email hn he
      (by revert hd; cases strLt date today <;> simp) ht
    rw [h] at this
    cases this
  have hall : ∀ b ∈ db.bookings, ¬(b.barber_id = bid ∧ b.date = date ∧ b.time = time) := by
    intro b hbm hcon
    exact ht ⟨b, hbm, hcon⟩
  have heq := book_confirm_eq_aux today db bid date time name email hn he
    (by revert hd; cases strLt date today <;> simp) hall
  rw [heq]
  refine ⟨rfl, ?_⟩
  simp [List.filter_append]

/-- C10 witness: after an admitted booking with email a@b.co against a store
that already holds a client with that same email, two distinct Client rows
share the email. -/
theorem book_inserts_fresh_client_witness :
    ((book FaultPoint.none "2025-10-12" dbOneStep 1 "2025-12-01" "10:00"
        "Bob" "a@b.co").2.clients.filter (fun c => c.email == "a@b.co")).length = 2 := by
  have h := (book_inserts_fresh_client "2025-10-12" dbOneStep 1 "2025-12-01" "10:00"
    "Bob" "a@b.co" (by decide)).2
  exact h.trans (by decide)

end BarberBooking
